import Mathlib

/-!
Verification of the data-cleaning / validation ETL pipeline
(`etl_pipeline.py`): a shallow embedding of its data model and of the
functions `load_and_prepare_passengers`, `create_tickets_df`,
`load_to_staging`, `transform_and_load` and `main`, together with proofs
of the specified properties.

Modelling conventions:
* a pandas DataFrame of passenger rows is a `List StagedPassenger`
  (row order = positional order of the frame);
* the database is a record of four tables, each a list of rows;
* a SQL transaction (`engine.begin()`) is a sequence of fallible
  statements: if every statement succeeds the accumulated state is
  committed, otherwise the original state is kept (rollback) and the
  error propagates (the run terminates);
* numeric SQL values are `ℚ` (ages such as `30.0`), identifiers are `ℤ`,
  nullable columns are `Option`-typed.
-/

set_option autoImplicit false

namespace Etl

/-- A row of `staging_passengers` / of the prepared passengers DataFrame.
Columns are those produced by `load_and_prepare_passengers`; `age`,
`sibsp`, `parch`, `fare` and `embarked` are nullable. -/
structure StagedPassenger where
  passenger_id : Int
  name : String
  sex : String
  age : Option ℚ
  sibsp : Option Int
  parch : Option Int
  fare : Option ℚ
  embarked : Option String
  deriving DecidableEq, Repr

/-- A row of `staging_tickets` / of the tickets DataFrame built by
`create_tickets_df` (its ticket-number column is named `ticket`). -/
structure StagedTicket where
  ticket_id : Int
  passenger_id : Int
  ticket : String
  «class» : Int
  cabin : String
  deriving DecidableEq, Repr

/-- A row of the final `passengers` table, with exactly the six columns
written by the promotion INSERT. -/
structure FinalPassenger where
  passenger_id : Int
  name : String
  sex : String
  age : ℚ
  family_size : Int
  embarked : String
  deriving DecidableEq, Repr

/-- A row of the final `tickets` table, with the five columns written by
the promotion INSERT. -/
structure FinalTicket where
  ticket_id : Int
  passenger_id : Int
  ticket_number : String
  «class» : Int
  cabin : String
  deriving DecidableEq, Repr

/-- The database state: the two staging tables and the two final tables. -/
structure DB where
  staging_passengers : List StagedPassenger
  staging_tickets : List StagedTicket
  passengers : List FinalPassenger
  tickets : List FinalTicket
  deriving DecidableEq, Repr

/-! ### Record Normalizer (`load_and_prepare_passengers`, lines 39-63)

The column-level behaviour of the function: `df.rename(columns=column_map)`
followed by `df[[v for v in column_map.values() if v in df.columns]]`,
then the access `df['age']` (which raises `KeyError` when the `age`
column is absent; the surrounding `except` then calls `sys.exit(1)`).
A raw frame is modelled by its list of column names. -/

/-- The `column_map` dict of `load_and_prepare_passengers`, in source
order. -/
def column_map : List (String × String) :=
  [("PassengerId", "passenger_id"), ("Name", "name"), ("Sex", "sex"),
   ("Age", "age"), ("SibSp", "sibsp"), ("Parch", "parch"),
   ("Fare", "fare"), ("Embarked", "embarked")]

/-- `df.rename(columns=column_map)`: each column name is replaced by its
image under `column_map` when it has one, and kept otherwise. -/
def renameColumns (cols : List String) : List String :=
  cols.map (fun c => (column_map.lookup c).getD c)

/-- Column-level embedding of `load_and_prepare_passengers`: rename, then
select `[v for v in column_map.values() if v in df.columns]`; finally the
statement `df['age'].isna().sum()` raises (and the handler exits the run)
exactly when no `age` column survives the selection. -/
def load_and_prepare_passengers (cols : List String) :
    Except Unit (List String) :=
  let renamed := renameColumns cols
  let selected := (column_map.map Prod.snd).filter (fun v => renamed.contains v)
  if selected.contains "age" then .ok selected else .error ()

/-! ### Ticket synthesis (`create_tickets_df`, lines 65-72) -/

/-- `create_tickets_df(passengers_df)`: one ticket per passenger row,
pairing the columns positionally; `ticket` is `'T' + str(i)` for
`i in range(1, len+1)`, `class` is the constant `3`, `cabin` the constant
`"Unknown"`. -/
def create_tickets_df (passengers_df : List StagedPassenger) :
    List StagedTicket :=
  ((List.range passengers_df.length).zip passengers_df).map
    (fun ip =>
      { ticket_id := ip.2.passenger_id
        passenger_id := ip.2.passenger_id
        ticket := "T" ++ toString (ip.1 + 1)
        «class» := 3
        cabin := "Unknown" })

/-! ### Transactions

A transactional stage is a list of SQL statements run inside one
`engine.begin()` block: the statements are applied in order to an
uncommitted working state; if one raises, the engine rolls back (the
visible state is the state from before the transaction) and the
exception propagates.  Statement failure is modelled by an oracle:
row-writing statements may be told to fail at a given 0-based row. -/

/-- Fold a fallible per-row insertion over the rows of a statement,
failing when the oracle names the current 0-based row index. -/
def insertRows {α β : Type} (ins : List β → α → List β) (failAt : Option Nat) :
    List α → Nat → List β → Except Unit (List β)
  | [], _, acc => .ok acc
  | x :: xs, i, acc =>
    if failAt = some i then .error ()
    else insertRows ins failAt xs (i + 1) (ins acc x)

/-- Run a list of statements in order, propagating the first error. -/
def applyStmts {σ ω : Type} (step : σ → ω → Except Unit ω) :
    List σ → ω → Except Unit ω
  | [], db => .ok db
  | s :: rest, db =>
    match step s db with
    | .ok db2 => applyStmts step rest db2
    | .error e => .error e

/-- Commit the result of a successful transaction; on error keep the
pre-transaction state (rollback). -/
def runTxn {σ : Type} (step : σ → DB → Except Unit DB) (stmts : List σ)
    (db : DB) : DB :=
  match applyStmts step stmts db with
  | .ok db2 => db2
  | .error _ => db

/-! ### Staging Loader (`load_to_staging`, lines 74-79) -/

/-- The statements of the staging transaction, in source order:
`TRUNCATE TABLE staging_passengers, staging_tickets RESTART IDENTITY;`,
then the bulk append of the passengers frame, then of the tickets
frame. -/
inductive StagingStmt where
  | truncateStaging
  | appendPassengers
  | appendTickets
  deriving DecidableEq, Repr

/-- Failure oracle for the staging transaction. -/
structure StagingFail where
  truncFail : Bool
  passFailAt : Option Nat
  tickFailAt : Option Nat
  deriving DecidableEq, Repr

/-- No statement fails. -/
def StagingFail.none : StagingFail := ⟨false, Option.none, Option.none⟩

/-- Effect of one staging statement on the working state. -/
def applyStagingStmt (fs : StagingFail) (passengers_df : List StagedPassenger)
    (tickets_df : List StagedTicket) :
    StagingStmt → DB → Except Unit DB
  | .truncateStaging, db =>
    if fs.truncFail then .error ()
    else .ok { db with staging_passengers := [], staging_tickets := [] }
  | .appendPassengers, db =>
    (insertRows (fun t r => t ++ [r]) fs.passFailAt passengers_df 0
        db.staging_passengers).map
      (fun t => { db with staging_passengers := t })
  | .appendTickets, db =>
    (insertRows (fun t r => t ++ [r]) fs.tickFailAt tickets_df 0
        db.staging_tickets).map
      (fun t => { db with staging_tickets := t })

/-- The statement list of `load_to_staging`, in source order. -/
def stagingStmts : List StagingStmt :=
  [.truncateStaging, .appendPassengers, .appendTickets]

/-- `load_to_staging(engine, passengers_df, tickets_df)`: one
transaction over `stagingStmts`. -/
def load_to_staging (fs : StagingFail) (passengers_df : List StagedPassenger)
    (tickets_df : List StagedTicket) (db : DB) : DB :=
  runTxn (applyStagingStmt fs passengers_df tickets_df) stagingStmts db

/-! ### Transform-and-Promote (`transform_and_load`, lines 81-109) -/

/-- Row transform of the promotion SELECT (lines 87-94): `TRIM(name)`,
`LOWER(sex)`, `COALESCE(age, 30.0)`,
`COALESCE(sibsp, 0) + COALESCE(parch, 0) + 1`, `COALESCE(embarked, 'S')`. -/
def promotePassenger (p : StagedPassenger) : FinalPassenger :=
  { passenger_id := p.passenger_id
    name := p.name.trim
    sex := p.sex.toLower
    age := p.age.getD 30
    family_size := p.sibsp.getD 0 + p.parch.getD 0 + 1
    embarked := p.embarked.getD "S" }

/-- Row transform of the ticket promotion SELECT (lines 101-103): the
staged `ticket` column lands in `ticket_number`, the others are copied. -/
def promoteTicket (t : StagedTicket) : FinalTicket :=
  { ticket_id := t.ticket_id
    passenger_id := t.passenger_id
    ticket_number := t.ticket
    «class» := t.«class»
    cabin := t.cabin }

/-- `ON CONFLICT (passenger_id) DO UPDATE SET ...`: overwrite the row
with the conflicting key when present, append otherwise. -/
def upsertPassenger (table : List FinalPassenger) (r : FinalPassenger) :
    List FinalPassenger :=
  if table.any (fun q => q.passenger_id == r.passenger_id) then
    table.map (fun q => if q.passenger_id == r.passenger_id then r else q)
  else table ++ [r]

/-- `ON CONFLICT (ticket_id) DO UPDATE SET ...` for the tickets table. -/
def upsertTicket (table : List FinalTicket) (r : FinalTicket) :
    List FinalTicket :=
  if table.any (fun q => q.ticket_id == r.ticket_id) then
    table.map (fun q => if q.ticket_id == r.ticket_id then r else q)
  else table ++ [r]

/-- The statements of the promotion transaction, in source order: the
single `execute` of `"DELETE FROM tickets; DELETE FROM passengers;"`
(two statements, tickets first), then the passengers upsert-INSERT, then
the tickets upsert-INSERT. -/
inductive TransformStmt where
  | deleteTickets
  | deletePassengers
  | insertPassengers
  | insertTickets
  deriving DecidableEq, Repr

/-- Failure oracle for the promotion transaction. -/
structure TransformFail where
  delTickFail : Bool
  delPassFail : Bool
  passFailAt : Option Nat
  tickFailAt : Option Nat
  deriving DecidableEq, Repr

/-- No statement fails. -/
def TransformFail.none : TransformFail :=
  ⟨false, false, Option.none, Option.none⟩

/-- Effect of one promotion statement on the working state. -/
def applyTransformStmt (fs : TransformFail) :
    TransformStmt → DB → Except Unit DB
  | .deleteTickets, db =>
    if fs.delTickFail then .error () else .ok { db with tickets := [] }
  | .deletePassengers, db =>
    if fs.delPassFail then .error () else .ok { db with passengers := [] }
  | .insertPassengers, db =>
    (insertRows (fun t p => upsertPassenger t (promotePassenger p))
        fs.passFailAt db.staging_passengers 0 db.passengers).map
      (fun t => { db with passengers := t })
  | .insertTickets, db =>
    (insertRows (fun t s => upsertTicket t (promoteTicket s))
        fs.tickFailAt db.staging_tickets 0 db.tickets).map
      (fun t => { db with tickets := t })

/-- The statement list of `transform_and_load`, in source order. -/
def transformStmts : List TransformStmt :=
  [.deleteTickets, .deletePassengers, .insertPassengers, .insertTickets]

/-- `transform_and_load(engine)`: one transaction over
`transformStmts`. -/
def transform_and_load (fs : TransformFail) (db : DB) : DB :=
  runTxn (applyTransformStmt fs) transformStmts db

/-! ### Run-level control flow (`connect_db` lines 24-37, `main` lines 119-139)

`main` is modelled over an environment describing the external
collaborators: whether the given file paths exist, whether the database
answers `SELECT 1`, what `pd.read_csv` returns (`none` = parse
exception), and whether the two transactional stages raise a SQL error.
The observable outcome is the process exit code, the ordered trace of
steps performed, and whether the run died of the `NameError` raised by
the call to the undefined `load_and_prepare_tickets`.  An unhandled
Python exception terminates the interpreter with exit status 1, as does
`sys.exit(1)`. -/

/-- The steps of a run, in the order `main` performs them. -/
inductive Event where
  | checkPassengersFile
  | connectDb
  | readPassengersCsv
  | checkTicketsFile
  | callLoadTickets
  | createTickets
  | stageLoad
  | promote
  | report
  deriving DecidableEq, Repr

/-- The external environment of one run.  `ticketsCsv` is `none` when no
tickets path is supplied, `some b` when one is supplied and `b` says
whether that file exists.  `parse` is the column list `pd.read_csv`
yields, `none` on a parse failure. -/
structure Env where
  passengersFileExists : Bool
  dbOk : Bool
  parse : Option (List String)
  ticketsCsv : Option Bool
  stageOk : Bool
  promoteOk : Bool
  deriving DecidableEq, Repr

/-- Observable outcome of a run. -/
structure RunOut where
  exitCode : Nat
  trace : List Event
  nameError : Bool
  deriving DecidableEq, Repr

/-- `main(passengers_csv, tickets_csv)` together with the
`if __name__ == "__main__"` harness: the passengers-file existence check
(line 122), `connect_db()` (line 126), `load_and_prepare_passengers`
(line 127), then either the tickets branch (existence check line 130,
call of the undefined `load_and_prepare_tickets` line 133) or
`create_tickets_df` (line 135); then `load_to_staging`,
`transform_and_load` and `show_analytics`. -/
def mainRun (env : Env) : RunOut :=
  if env.passengersFileExists = false then
    ⟨1, [.checkPassengersFile], false⟩
  else if env.dbOk = false then
    ⟨1, [.checkPassengersFile, .connectDb], false⟩
  else
    match env.parse with
    | Option.none =>
      ⟨1, [.checkPassengersFile, .connectDb, .readPassengersCsv], false⟩
    | Option.some cols =>
      match load_and_prepare_passengers cols with
      | .error _ =>
        ⟨1, [.checkPassengersFile, .connectDb, .readPassengersCsv], false⟩
      | .ok _ =>
        match env.ticketsCsv with
        | Option.some tExists =>
          if tExists = false then
            ⟨1, [.checkPassengersFile, .connectDb, .readPassengersCsv,
                 .checkTicketsFile], false⟩
          else
            ⟨1, [.checkPassengersFile, .connectDb, .readPassengersCsv,
                 .checkTicketsFile, .callLoadTickets], true⟩
        | Option.none =>
          if env.stageOk = false then
            ⟨1, [.checkPassengersFile, .connectDb, .readPassengersCsv,
                 .createTickets, .stageLoad], false⟩
          else if env.promoteOk = false then
            ⟨1, [.checkPassengersFile, .connectDb, .readPassengersCsv,
                 .createTickets, .stageLoad, .promote], false⟩
          else
            ⟨0, [.checkPassengersFile, .connectDb, .readPassengersCsv,
                 .createTickets, .stageLoad, .promote, .report], false⟩

/-! ### Derived forms used in the proofs -/

/-- Whether a row-writing statement's failure oracle triggers while
rows `i, i+1, …, i+n-1` are written. -/
def failsIn (fa : Option Nat) (i n : Nat) : Bool :=
  match fa with
  | Option.none => false
  | Option.some k => decide (i ≤ k) && decide (k < i + n)

/-- Whether the staging transaction commits. -/
def stagingOk (fs : StagingFail) (passengers_df : List StagedPassenger)
    (tickets_df : List StagedTicket) : Bool :=
  !fs.truncFail && !failsIn fs.passFailAt 0 passengers_df.length &&
    !failsIn fs.tickFailAt 0 tickets_df.length

/-- Whether the promotion transaction commits. -/
def transformOk (fs : TransformFail) (db : DB) : Bool :=
  !fs.delTickFail && !fs.delPassFail &&
    !failsIn fs.passFailAt 0 db.staging_passengers.length &&
    !failsIn fs.tickFailAt 0 db.staging_tickets.length

/-- The final passengers table produced by a committed promotion of the
given staging rows. -/
def promotedPassengers (rows : List StagedPassenger) : List FinalPassenger :=
  rows.foldl (fun t p => upsertPassenger t (promotePassenger p)) []

/-- The final tickets table produced by a committed promotion of the
given staging rows. -/
def promotedTickets (rows : List StagedTicket) : List FinalTicket :=
  rows.foldl (fun t s => upsertTicket t (promoteTicket s)) []

/-- Whether a run reaches the final success exit. -/
def runSucceeds (env : Env) : Bool :=
  env.passengersFileExists && env.dbOk &&
    (match env.parse with
     | Option.none => false
     | Option.some cols =>
       match load_and_prepare_passengers cols with
       | .ok _ => true
       | .error _ => false) &&
    env.ticketsCsv.isNone && env.stageOk && env.promoteOk

/-! ### Concrete sample data (used to instantiate the theorems) -/

/-- The first row of the spec's end-to-end scenario: whitespace-padded
name, upper-case sex, null age. -/
def rowAlice : StagedPassenger :=
  ⟨1, " Alice ", "Female", Option.none, Option.some 1, Option.some 0,
   Option.none, Option.some "C"⟩

/-- The second row of the spec's end-to-end scenario: null embarked. -/
def rowBob : StagedPassenger :=
  ⟨2, "Bob", "Male", Option.some 40, Option.some 0, Option.some 0,
   Option.none, Option.none⟩

/-- A database whose staging tables hold the two scenario rows and the
tickets synthesized for them, and whose final tables are nonempty. -/
def dbW : DB :=
  ⟨[rowAlice, rowBob], create_tickets_df [rowAlice, rowBob],
   [⟨9, "Old", "old", 9, 9, "Q"⟩], [⟨9, 9, "OldT", 9, "OldC"⟩]⟩

/-- A full Kaggle-style header row, including an unrecognized column. -/
def colsFull : List String :=
  ["PassengerId", "Name", "Sex", "Age", "SibSp", "Parch", "Fare",
   "Embarked", "Cabin"]

/-- Environment of a fully successful run (no tickets CSV supplied). -/
def envSuccess : Env :=
  ⟨true, true, Option.some colsFull, Option.none, true, true⟩

/-- Environment of a run given a tickets CSV path that does not exist. -/
def envTicketsMissing : Env :=
  ⟨true, true, Option.some colsFull, Option.some false, true, true⟩

/-- Environment of a run given a tickets CSV path that does exist. -/
def envTicketsPresent : Env :=
  ⟨true, true, Option.some colsFull, Option.some true, true, true⟩

/-- Environment where the database is unreachable. -/
def envDbDown : Env :=
  ⟨true, false, Option.some colsFull, Option.none, true, true⟩

/-- Environment where the passengers file does not exist. -/
def envNoFile : Env :=
  ⟨false, true, Option.some colsFull, Option.none, true, true⟩

/-- Environment where the passengers CSV cannot be parsed. -/
def envParseFail : Env :=
  ⟨true, true, Option.none, Option.none, true, true⟩

/-- Environment where the staging transaction raises a SQL error. -/
def envStageFail : Env :=
  ⟨true, true, Option.some colsFull, Option.none, false, true⟩

/-- Environment where the promotion transaction raises a SQL error. -/
def envPromoteFail : Env :=
  ⟨true, true, Option.some colsFull, Option.none, true, false⟩

/-- The tickets synthesized for the two scenario rows. -/
def tdfW : List StagedTicket := create_tickets_df [rowAlice, rowBob]

/-- A promotion failure oracle that fails while inserting row 0 of the
passengers INSERT. -/
def fsRow0 : TransformFail :=
  ⟨false, false, Option.some 0, Option.none⟩

/-- A staging failure oracle that fails while appending row 1 of the
tickets frame. -/
def sfRow1 : StagingFail :=
  ⟨false, Option.none, Option.some 1⟩

lemma foldl_push {α : Type} : ∀ (xs acc : List α),
    xs.foldl (fun t r => t ++ [r]) acc = acc ++ xs
  | [], acc => by simp
  | x :: xs, acc => by
    simp [List.foldl_cons, foldl_push xs (acc ++ [x])]

lemma insertRows_eq {α β : Type} (ins : List β → α → List β)
    (fa : Option Nat) : ∀ (xs : List α) (i : Nat) (acc : List β),
    insertRows ins fa xs i acc =
      if failsIn fa i xs.length then .error () else .ok (xs.foldl ins acc)
  | [], i, acc => by
    cases fa with
    | none => simp [insertRows, failsIn]
    | some k =>
      simp only [insertRows, failsIn, List.length_nil, Nat.add_zero]
      rcases Nat.lt_or_ge k i with h | h
      · have h1 : decide (i ≤ k) = false := decide_eq_false (by omega)
        simp [h1]
      · have h1 : decide (k < i) = false := decide_eq_false (by omega)
        simp [h1]
  | x :: xs, i, acc => by
    cases fa with
    | none =>
      simp only [insertRows, failsIn]
      rw [if_neg (by simp)]
      simpa [failsIn] using insertRows_eq ins Option.none xs (i + 1) (ins acc x)
    | some k =>
      by_cases hk : k = i
      · simp only [insertRows, hk, failsIn, List.length_cons]
        have h1 : decide (i ≤ i) = true := decide_eq_true (Nat.le_refl i)
        have h2 : decide (i < i + (xs.length + 1)) = true :=
          decide_eq_true (by omega)
        simp [h1, h2]
      · have hne : ¬ (Option.some k = Option.some i) := by simp [hk]
        simp only [insertRows, if_neg hne]
        rw [insertRows_eq ins (Option.some k) xs (i + 1) (ins acc x)]
        have hcond : failsIn (Option.some k) (i + 1) xs.length =
            failsIn (Option.some k) i (x :: xs).length := by
          simp only [failsIn, List.length_cons]
          rcases Nat.lt_or_ge k i with h | h
          · have h1 : decide (i + 1 ≤ k) = false := decide_eq_false (by omega)
            have h2 : decide (i ≤ k) = false := decide_eq_false (by omega)
            simp [h1, h2]
          · have h1 : decide (i + 1 ≤ k) = true := decide_eq_true (by omega)
            have h2 : decide (i ≤ k) = true := decide_eq_true (by omega)
            have harith : i + 1 + xs.length = i + (xs.length + 1) := by omega
            simp [h1, h2, harith]
        rw [hcond]
        rfl

lemma runTxn_of_error {σ : Type} (step : σ → DB → Except Unit DB)
    (stmts : List σ) (db : DB) (e : Unit)
    (h : applyStmts step stmts db = .error e) : runTxn step stmts db = db := by
  simp [runTxn, h]

lemma applyStmts_staging (fs : StagingFail) (passengers_df : List StagedPassenger)
    (tickets_df : List StagedTicket) (db : DB) :
    applyStmts (applyStagingStmt fs passengers_df tickets_df) stagingStmts db =
      if stagingOk fs passengers_df tickets_df then
        .ok { db with staging_passengers := passengers_df,
                      staging_tickets := tickets_df }
      else .error () := by
  rcases fs with ⟨tf, pfa, tfa⟩
  simp only [applyStmts, stagingStmts, applyStagingStmt, stagingOk]
  cases tf
  · simp only [Bool.false_eq_true, if_false, Bool.not_false, Bool.true_and]
    rw [insertRows_eq]
    cases hp : failsIn pfa 0 passengers_df.length
    · simp only [Bool.false_eq_true, if_false, Except.map, foldl_push,
                 List.nil_append, Bool.not_false, Bool.true_and]
      rw [insertRows_eq]
      cases ht : failsIn tfa 0 tickets_df.length
      · simp [Except.map, foldl_push]
      · simp [Except.map]
    · simp [Except.map]
  · simp

lemma applyStmts_transform (fs : TransformFail) (db : DB) :
    applyStmts (applyTransformStmt fs) transformStmts db =
      if transformOk fs db then
        .ok { db with passengers := promotedPassengers db.staging_passengers,
                      tickets := promotedTickets db.staging_tickets }
      else .error () := by
  rcases fs with ⟨dtf, dpf, pfa, tfa⟩
  simp only [applyStmts, transformStmts, applyTransformStmt, transformOk]
  cases dtf
  · simp only [Bool.false_eq_true, if_false, Bool.not_false, Bool.true_and]
    cases dpf
    · simp only [Bool.false_eq_true, if_false, Bool.not_false, Bool.true_and]
      rw [insertRows_eq]
      cases hp : failsIn pfa 0 db.staging_passengers.length
      · simp only [Bool.false_eq_true, if_false, Except.map, Bool.not_false,
                   Bool.true_and]
        rw [insertRows_eq]
        cases ht : failsIn tfa 0 db.staging_tickets.length
        · simp [Except.map, promotedPassengers, promotedTickets]
        · simp [Except.map]
      · simp [Except.map]
    · simp
  · simp

/-- A committed (no-failure) promotion replaces the two final tables by
the promoted staging rows and leaves the staging tables unchanged. -/
lemma transform_and_load_none (db : DB) :
    transform_and_load TransformFail.none db =
      { db with passengers := promotedPassengers db.staging_passengers,
                tickets := promotedTickets db.staging_tickets } := by
  have hok : transformOk TransformFail.none db = true := by
    simp [transformOk, TransformFail.none, failsIn]
  simp [transform_and_load, runTxn, applyStmts_transform, hok]

/-- Upserting a row whose key is absent from the table appends it. -/
lemma upsertPassenger_not_mem (acc : List FinalPassenger) (r : FinalPassenger)
    (h : ∀ a ∈ acc, a.passenger_id ≠ r.passenger_id) :
    upsertPassenger acc r = acc ++ [r] := by
  have hany : acc.any (fun q => q.passenger_id == r.passenger_id) = false := by
    rw [List.any_eq_false]
    intro a ha
    simp [h a ha]
  simp [upsertPassenger, hany]

/-- With pairwise-distinct keys (and keys disjoint from the accumulator),
the upsert fold only ever appends: it is the map of the row transform. -/
lemma foldl_upsertPassenger :
    ∀ (rows : List StagedPassenger) (acc : List FinalPassenger),
    (rows.map (fun p => p.passenger_id)).Nodup →
    (∀ r ∈ rows, ∀ a ∈ acc, a.passenger_id ≠ r.passenger_id) →
    rows.foldl (fun t p => upsertPassenger t (promotePassenger p)) acc =
      acc ++ rows.map promotePassenger
  | [], acc, _, _ => by simp
  | p :: rows, acc, hn, hd => by
    simp only [List.map_cons, List.nodup_cons] at hn
    simp only [List.foldl_cons, List.map_cons]
    rw [upsertPassenger_not_mem acc (promotePassenger p) (fun a ha => by
      simpa [promotePassenger] using hd p (List.mem_cons_self p rows) a ha)]
    rw [foldl_upsertPassenger rows (acc ++ [promotePassenger p]) hn.2 ?_]
    · simp
    · intro r hr a ha
      rcases List.mem_append.mp ha with hacc | hsing
      · exact hd r (List.mem_cons_of_mem p hr) a hacc
      · have ha2 : a = promotePassenger p := by simpa using hsing
        subst ha2
        simp only [promotePassenger]
        intro heq
        exact hn.1 (heq ▸ List.mem_map_of_mem (fun q => q.passenger_id) hr)

/-- Under distinct staged keys the promoted table is row-for-row the
image of the staging table. -/
lemma promotedPassengers_eq_map (rows : List StagedPassenger)
    (hn : (rows.map (fun p => p.passenger_id)).Nodup) :
    promotedPassengers rows = rows.map promotePassenger := by
  simpa [promotedPassengers] using
    foldl_upsertPassenger rows [] hn (by simp)

/-- The process exit status is `0` exactly on the fully successful path
and `1` otherwise. -/
lemma mainRun_exit_eq (env : Env) :
    (mainRun env).exitCode = if runSucceeds env then 0 else 1 := by
  rcases env with ⟨pf, dbk, parse, t, s, p⟩
  cases pf
  · simp [mainRun, runSucceeds]
  · cases dbk
    · simp [mainRun, runSucceeds]
    · cases parse with
      | none => simp [mainRun, runSucceeds]
      | some cols =>
        cases hl : load_and_prepare_passengers cols with
        | error e => simp [mainRun, runSucceeds, hl]
        | ok out =>
          cases t with
          | some tex => cases tex <;> simp [mainRun, runSucceeds, hl]
          | none =>
            cases s
            · simp [mainRun, runSucceeds, hl]
            · cases p <;> simp [mainRun, runSucceeds, hl]

/-! ## The claims -/

/-- Claim C1: for every staging Passenger row, the promoted final row has
`name` trimmed of surrounding whitespace, `sex` lower-cased, `age` the
staged age or `30.0` when null, `family_size = sibsp + parch + 1` with
null `sibsp`/`parch` treated as `0`, and `embarked` the staged value or
`'S'` when null.  (Stated for staging tables with pairwise-distinct
`passenger_id`s, which the upsert keys require for a row-for-row
correspondence.) -/
theorem promotion_imputes_defaults (db : DB)
    (hn : (db.staging_passengers.map (fun p => p.passenger_id)).Nodup)
    (p : StagedPassenger) (hp : p ∈ db.staging_passengers) :
    ∃ q ∈ (transform_and_load TransformFail.none db).passengers,
      q.passenger_id = p.passenger_id ∧
      q.name = p.name.trim ∧
      q.sex = p.sex.toLower ∧
      q.age = p.age.getD 30 ∧
      q.family_size = p.sibsp.getD 0 + p.parch.getD 0 + 1 ∧
      q.embarked = p.embarked.getD "S" := by
  rw [transform_and_load_none]
  simp only
  rw [promotedPassengers_eq_map db.staging_passengers hn]
  exact ⟨promotePassenger p, List.mem_map_of_mem promotePassenger hp,
         rfl, rfl, rfl, rfl, rfl, rfl⟩

/-- Witness for C1 at the spec's scenario row (null age, padded name). -/
theorem promotion_imputes_defaults_witness :
    (dbW.staging_passengers.map (fun p => p.passenger_id)).Nodup ∧
    rowAlice ∈ dbW.staging_passengers ∧
    (∃ q ∈ (transform_and_load TransformFail.none dbW).passengers,
      q.passenger_id = rowAlice.passenger_id ∧
      q.name = rowAlice.name.trim ∧
      q.sex = rowAlice.sex.toLower ∧
      q.age = rowAlice.age.getD 30 ∧
      q.family_size = rowAlice.sibsp.getD 0 + rowAlice.parch.getD 0 + 1 ∧
      q.embarked = rowAlice.embarked.getD "S") :=
  ⟨by decide, by simp [dbW],
   promotion_imputes_defaults dbW (by decide) rowAlice (by simp [dbW])⟩

/-- Claim C2: running the transform-and-promote step twice with
identical staging contents yields the same final state as running it
once (promotion is idempotent). -/
theorem promotion_idempotent (db : DB) :
    transform_and_load TransformFail.none
        (transform_and_load TransformFail.none db) =
      transform_and_load TransformFail.none db := by
  simp [transform_and_load_none]

/-- Claim C3: with no tickets CSV supplied, exactly one ticket is
synthesized per passenger, in row order, with `ticket_id` the
passenger's id, ticket number `"T") ++ (1-based index)`, class `3` and
cabin `"Unknown"`. -/
theorem synthesized_tickets_shape (passengers_df : List StagedPassenger) :
    (create_tickets_df passengers_df).length = passengers_df.length ∧
    (∀ (i : Nat) (p : StagedPassenger), passengers_df[i]? = some p →
      (create_tickets_df passengers_df)[i]? =
        some { ticket_id := p.passenger_id, passenger_id := p.passenger_id,
               ticket := "T" ++ toString (i + 1), «class» := 3,
               cabin := "Unknown" }) := by
  constructor
  · simp [create_tickets_df]
  · intro i p hp
    simp only [create_tickets_df]
    rw [← List.enum_eq_zip_range, List.getElem?_map, List.getElem?_enum, hp]
    rfl

/-- Witness for C3: the second row of a two-row frame gets ticket
number `"T2"`. -/
theorem synthesized_tickets_shape_witness :
    [rowAlice, rowBob][1]? = some rowBob ∧
    (create_tickets_df [rowAlice, rowBob])[1]? =
      some { ticket_id := rowBob.passenger_id,
             passenger_id := rowBob.passenger_id,
             ticket := "T" ++ toString (1 + 1), «class» := 3,
             cabin := "Unknown" } :=
  ⟨by decide,
   (synthesized_tickets_shape [rowAlice, rowBob]).2 1 rowBob (by decide)⟩

/-- Claim C7: the promotion transaction clears the final tickets table
before the final passengers table, and both clears precede each of its
INSERT statements. -/
theorem final_clear_order :
    transformStmts.indexOf TransformStmt.deleteTickets <
        transformStmts.indexOf TransformStmt.deletePassengers ∧
      transformStmts.indexOf TransformStmt.deletePassengers <
        transformStmts.indexOf TransformStmt.insertPassengers ∧
      transformStmts.indexOf TransformStmt.deletePassengers <
        transformStmts.indexOf TransformStmt.insertTickets ∧
      transformStmts.indexOf TransformStmt.deleteTickets <
        transformStmts.indexOf TransformStmt.insertPassengers ∧
      transformStmts.indexOf TransformStmt.deleteTickets <
        transformStmts.indexOf TransformStmt.insertTickets := by
  decide

/-- Claim C4 counterexample: a parseable batch whose recognized columns
do not include Age.  The claim says the Normalizer succeeds when some
recognized columns are absent; the code instead terminates the run
(`df['age']` raises `KeyError` and the handler exits), so the claim as
stated is false at this input. -/
theorem normalizer_missing_age_fails :
    load_and_prepare_passengers ["PassengerId", "Name"] = .error () := by
  rfl

/-- Claim C4 as amended: the Normalizer returns only recognized
canonical columns, each present in the (renamed) input, and it succeeds
exactly when an Age/age column is present — absence of any *other*
recognized column is tolerated, but absence of the age column
terminates the run. -/
theorem normalizer_amended (cols : List String) :
    ((∃ out, load_and_prepare_passengers cols = .ok out) ↔
      "age" ∈ renameColumns cols) ∧
    (∀ out, load_and_prepare_passengers cols = .ok out →
      ∀ c ∈ out, c ∈ column_map.map Prod.snd ∧ c ∈ renameColumns cols) := by
  have hcanon : "age" ∈ column_map.map Prod.snd := by decide
  simp only [load_and_prepare_passengers]
  cases hsel : ((column_map.map Prod.snd).filter
      (fun v => (renameColumns cols).contains v)).contains "age" with
  | false =>
    constructor
    · constructor
      · rintro ⟨out, hout⟩
        simp at hout
      · intro hage
        exfalso
        have hmem : "age" ∈ (column_map.map Prod.snd).filter
            (fun v => (renameColumns cols).contains v) := by
          rw [List.mem_filter]
          exact ⟨hcanon, List.elem_iff.mpr hage⟩
        have htrue := List.elem_iff.mpr hmem
        have hsel2 : List.elem "age" ((column_map.map Prod.snd).filter
            (fun v => (renameColumns cols).contains v)) = false := hsel
        rw [hsel2] at htrue
        exact Bool.false_ne_true htrue
    · intro out hout
      simp at hout
  | true =>
    constructor
    · constructor
      · intro _
        have hmem : "age" ∈ (column_map.map Prod.snd).filter
            (fun v => (renameColumns cols).contains v) :=
          List.elem_iff.mp hsel
        exact List.elem_iff.mp (List.mem_filter.mp hmem).2
      · intro _
        exact ⟨_, rfl⟩
    · intro out hout
      have hout2 : (column_map.map Prod.snd).filter
          (fun v => (renameColumns cols).contains v) = out := by
        simpa using hout
      intro c hc
      rw [← hout2, List.mem_filter] at hc
      exact ⟨hc.1, List.elem_iff.mp hc.2⟩

/-- Witness for C4 (amended): a frame with Age present but SibSp,
Parch, Fare, Embarked absent and an unrecognized column succeeds, and
its output columns are canonical and drawn from the input. -/
theorem normalizer_amended_witness :
    ((∃ out, load_and_prepare_passengers ["PassengerId", "Age", "Junk"] =
        .ok out) ↔ "age" ∈ renameColumns ["PassengerId", "Age", "Junk"]) ∧
    (∀ c ∈ ["passenger_id", "age"],
      c ∈ column_map.map Prod.snd ∧
        c ∈ renameColumns ["PassengerId", "Age", "Junk"]) :=
  ⟨(normalizer_amended ["PassengerId", "Age", "Junk"]).1,
   (normalizer_amended ["PassengerId", "Age", "Junk"]).2
     ["passenger_id", "age"] (by rfl)⟩

/-- Claim C5: if any SQL statement of the promotion transaction fails,
the whole transaction is rolled back — the database (staging and final
tables alike) is exactly what it was before the transaction — and the
run then terminates with a non-zero exit. -/
theorem promotion_rollback_on_error :
    (∀ (fs : TransformFail) (db : DB) (e : Unit),
      applyStmts (applyTransformStmt fs) transformStmts db = .error e →
      transform_and_load fs db = db) ∧
    (∀ env : Env, env.promoteOk = false → (mainRun env).exitCode = 1) := by
  constructor
  · intro fs db e h
    exact runTxn_of_error (applyTransformStmt fs) transformStmts db e h
  · intro env h
    rw [mainRun_exit_eq]
    have hf : runSucceeds env = false := by
      simp [runSucceeds, h]
    simp [hf]

/-- Witness for C5: with three kept final rows and a failure on row 0 of
the passengers INSERT, the database is unchanged, and a run whose
promotion stage fails exits 1. -/
theorem promotion_rollback_on_error_witness :
    applyStmts (applyTransformStmt fsRow0) transformStmts dbW =
        .error () ∧
    transform_and_load fsRow0 dbW = dbW ∧
    envPromoteFail.promoteOk = false ∧
    (mainRun envPromoteFail).exitCode = 1 :=
  ⟨by rfl,
   promotion_rollback_on_error.1 fsRow0 dbW () (by rfl),
   rfl,
   promotion_rollback_on_error.2 envPromoteFail rfl⟩

/-- Claim C6: the staging load is one all-or-nothing transaction that
truncates both staging tables and then appends the passenger batch
followed by the ticket batch: on success the staging tables hold exactly
the two new batches (final tables untouched), on any failure the
database is unchanged; the truncate precedes both appends and the
passenger append precedes the ticket append. -/
theorem staging_load_atomic :
    (∀ (fs : StagingFail) (passengers_df : List StagedPassenger)
       (tickets_df : List StagedTicket) (db : DB),
      (stagingOk fs passengers_df tickets_df = true →
        load_to_staging fs passengers_df tickets_df db =
          { db with staging_passengers := passengers_df,
                    staging_tickets := tickets_df }) ∧
      (stagingOk fs passengers_df tickets_df = false →
        load_to_staging fs passengers_df tickets_df db = db)) ∧
    (stagingStmts.indexOf StagingStmt.truncateStaging <
        stagingStmts.indexOf StagingStmt.appendPassengers ∧
      stagingStmts.indexOf StagingStmt.appendPassengers <
        stagingStmts.indexOf StagingStmt.appendTickets) := by
  constructor
  · intro fs passengers_df tickets_df db
    constructor <;> intro h <;>
      simp [load_to_staging, runTxn, applyStmts_staging, h]
  · decide

/-- Witness for C6: a clean run lands both scenario batches exactly; a
run whose ticket append fails at row 1 leaves the database unchanged. -/
theorem staging_load_atomic_witness :
    stagingOk StagingFail.none [rowAlice, rowBob] tdfW = true ∧
    load_to_staging StagingFail.none [rowAlice, rowBob] tdfW dbW =
      { dbW with staging_passengers := [rowAlice, rowBob],
                 staging_tickets := tdfW } ∧
    stagingOk sfRow1 [rowAlice, rowBob] tdfW = false ∧
    load_to_staging sfRow1 [rowAlice, rowBob] tdfW dbW = dbW :=
  ⟨by rfl,
   (staging_load_atomic.1 StagingFail.none [rowAlice, rowBob] tdfW dbW).1
     (by rfl),
   by rfl,
   (staging_load_atomic.1 sfRow1 [rowAlice, rowBob] tdfW dbW).2 (by rfl)⟩

/-- Claim C8 counterexample: in a run whose supplied tickets CSV path
does not exist, the process does exit non-zero, but the existence check
happens only *after* the database connection is attempted — the trace
places `connectDb` strictly before `checkTicketsFile`, refuting "the
existence check happens before any database work". -/
theorem tickets_check_after_connect :
    (mainRun envTicketsMissing).exitCode = 1 ∧
    (mainRun envTicketsMissing).trace =
      [Event.checkPassengersFile, Event.connectDb, Event.readPassengersCsv,
       Event.checkTicketsFile] ∧
    (mainRun envTicketsMissing).trace.indexOf Event.connectDb <
      (mainRun envTicketsMissing).trace.indexOf Event.checkTicketsFile := by
  refine ⟨rfl, rfl, ?_⟩
  decide

/-- Claim C8 as amended: a nonexistent supplied input path always makes
the process exit non-zero; the *passengers*-file check precedes any
database work (no connection is attempted), while the *tickets*-file
check runs after the connection but still before any staging or
promotion. -/
theorem file_checks_amended (env : Env) :
    (env.passengersFileExists = false →
      (mainRun env).exitCode = 1 ∧
        Event.connectDb ∉ (mainRun env).trace) ∧
    (env.ticketsCsv = Option.some false →
      (mainRun env).exitCode = 1 ∧
        Event.stageLoad ∉ (mainRun env).trace ∧
        Event.promote ∉ (mainRun env).trace) := by
  rcases env with ⟨pf, dbk, parse, t, s, p⟩
  constructor
  · intro h
    simp only at h
    subst h
    simp [mainRun]
  · intro h
    simp only at h
    subst h
    cases pf
    · simp [mainRun]
    · cases dbk
      · simp [mainRun]
      · cases parse with
        | none => simp [mainRun]
        | some cols =>
          cases hl : load_and_prepare_passengers cols with
          | error e => simp [mainRun, hl]
          | ok out => simp [mainRun, hl]

/-- Witness for C8 (amended): the missing-passengers-file run and the
missing-tickets-file run. -/
theorem file_checks_amended_witness :
    ((mainRun envNoFile).exitCode = 1 ∧
      Event.connectDb ∉ (mainRun envNoFile).trace) ∧
    ((mainRun envTicketsMissing).exitCode = 1 ∧
      Event.stageLoad ∉ (mainRun envTicketsMissing).trace ∧
      Event.promote ∉ (mainRun envTicketsMissing).trace) :=
  ⟨(file_checks_amended envNoFile).1 rfl,
   (file_checks_amended envTicketsMissing).2 rfl⟩

/-- Claim C9: the exit code is 0 exactly on full success, and 1 on a
missing passengers file, a connectivity failure, a CSV-parse failure, a
missing tickets file, or a SQL error in either transactional stage. -/
theorem exit_codes (env : Env) :
    ((mainRun env).exitCode = 0 ∨ (mainRun env).exitCode = 1) ∧
    ((mainRun env).exitCode = 0 ↔ runSucceeds env = true) ∧
    (env.passengersFileExists = false → (mainRun env).exitCode = 1) ∧
    (env.dbOk = false → (mainRun env).exitCode = 1) ∧
    (env.parse = Option.none → (mainRun env).exitCode = 1) ∧
    (env.ticketsCsv = Option.some false → (mainRun env).exitCode = 1) ∧
    (env.stageOk = false → (mainRun env).exitCode = 1) ∧
    (env.promoteOk = false → (mainRun env).exitCode = 1) := by
  have hmain := mainRun_exit_eq env
  cases hs : runSucceeds env with
  | true =>
    rw [hs] at hmain
    simp only [if_true] at hmain
    refine ⟨Or.inl hmain, by simp [hmain, hs], ?_, ?_, ?_, ?_, ?_, ?_⟩ <;>
      (intro h; exfalso; simp [runSucceeds, h] at hs)
  | false =>
    rw [hs] at hmain
    simp only [Bool.false_eq_true, if_false] at hmain
    refine ⟨Or.inr hmain, ?_, fun _ => hmain, fun _ => hmain,
            fun _ => hmain, fun _ => hmain, fun _ => hmain, fun _ => hmain⟩
    rw [hmain]
    simp [hs]

/-- Witness for C9: one environment per exit condition. -/
theorem exit_codes_witness :
    (mainRun envSuccess).exitCode = 0 ∧
    (mainRun envNoFile).exitCode = 1 ∧
    (mainRun envDbDown).exitCode = 1 ∧
    (mainRun envParseFail).exitCode = 1 ∧
    (mainRun envTicketsMissing).exitCode = 1 ∧
    (mainRun envStageFail).exitCode = 1 ∧
    (mainRun envPromoteFail).exitCode = 1 :=
  ⟨(exit_codes envSuccess).2.1.mpr (by rfl),
   (exit_codes envNoFile).2.2.1 rfl,
   (exit_codes envDbDown).2.2.2.1 rfl,
   (exit_codes envParseFail).2.2.2.2.1 rfl,
   (exit_codes envTicketsMissing).2.2.2.2.2.1 rfl,
   (exit_codes envStageFail).2.2.2.2.2.2.1 rfl,
   (exit_codes envPromoteFail).2.2.2.2.2.2.2 rfl⟩

/-- Claim C10: a run with a supplied, existing tickets CSV never reaches
staging or promotion and cannot exit 0: once the earlier stages succeed
it dies of the `NameError` from the undefined `load_and_prepare_tickets`.
Conversely, any run that reaches the staging stage supplied no tickets
CSV (the synthesized-tickets path is the only flow that stages). -/
theorem tickets_path_never_stages (env : Env) :
    (env.ticketsCsv = Option.some true →
      Event.stageLoad ∉ (mainRun env).trace ∧
      Event.promote ∉ (mainRun env).trace ∧
      (mainRun env).exitCode = 1 ∧
      (env.passengersFileExists = true → env.dbOk = true →
        ∀ cols out, env.parse = Option.some cols →
          load_and_prepare_passengers cols = .ok out →
          (mainRun env).nameError = true)) ∧
    (Event.stageLoad ∈ (mainRun env).trace →
      env.ticketsCsv = Option.none) := by
  rcases env with ⟨pf, dbk, parse, t, s, p⟩
  constructor
  · intro ht
    simp only at ht
    subst ht
    cases pf
    · simp [mainRun]
    · cases dbk
      · simp [mainRun]
      · cases parse with
        | none => simp [mainRun]
        | some cols =>
          cases hl : load_and_prepare_passengers cols with
          | error e =>
            simp [mainRun, hl]
            intro c o hc
            subst hc
            simp [hl]
          | ok out => simp [mainRun, hl]
  · intro hst
    cases pf
    · simp [mainRun] at hst
    · cases dbk
      · simp [mainRun] at hst
      · cases parse with
        | none => simp [mainRun] at hst
        | some cols =>
          cases hl : load_and_prepare_passengers cols with
          | error e => simp [mainRun, hl] at hst
          | ok out =>
            cases t with
            | none => rfl
            | some tex => cases tex <;> simp [mainRun, hl] at hst

/-- Witness for C10: the run given an existing tickets CSV dies of the
`NameError` without staging; the successful synthesized-tickets run that
does stage indeed supplied no tickets CSV. -/
theorem tickets_path_never_stages_witness :
    (Event.stageLoad ∉ (mainRun envTicketsPresent).trace ∧
      Event.promote ∉ (mainRun envTicketsPresent).trace ∧
      (mainRun envTicketsPresent).exitCode = 1 ∧
      (mainRun envTicketsPresent).nameError = true) ∧
    envSuccess.ticketsCsv = Option.none := by
  have h := (tickets_path_never_stages envTicketsPresent).1 rfl
  refine ⟨⟨h.1, h.2.1, h.2.2.1, ?_⟩, ?_⟩
  · exact h.2.2.2 rfl rfl colsFull
      ["passenger_id", "name", "sex", "age", "sibsp", "parch", "fare",
       "embarked"] rfl (by rfl)
  · exact (tickets_path_never_stages envSuccess).2 (by decide)

end Etl
